import Mathlib

/-!
Verification of core behaviors of a DDS/RTPS middleware implementation
(participant event loop, secure discovery handshake machinery, and the
built-in cryptographic transforms) against its natural-language
specification.  The Rust source is shallowly embedded: pure functions
become Lean functions, stateful code becomes explicit state passing,
machine integers become Nat, and fallible code returns Except/Option.
External collaborators that the source treats as abstract interfaces
(the AEAD cipher, the wire serializer, the security plugins) are
modelled as parameters or as spec-modelled definitions, each marked in
its doc comment.
-/

namespace RustDDS

/-- The 12-byte RTPS GuidPrefix, modelled abstractly as a natural number. -/
abbrev GuidPre := Nat

/-- The 4-byte RTPS EntityId, modelled abstractly as a natural number. -/
abbrev EId := Nat

/-- Authentication status of a remote participant, from
`secure_discovery.rs` (enum AuthenticationStatus). -/
inductive AuthenticationStatus where
  | Authenticated
  | Authenticating
  | Unauthenticated
  | Rejected
deriving DecidableEq, Repr

/-- Permission for normal Discovery to process a message, from
`secure_discovery.rs` (enum NormalDiscoveryPermission). -/
inductive NormalDiscoveryPermission where
  | Allow
  | Deny
deriving DecidableEq, Repr

/-!
C10: participant_dispose_read

`SecureDiscovery::participant_dispose_read` inspects a dispose message on
the DCPSParticipant topic.  It only reads the authentication status of the remote
participant from the DiscoveryDB and decides a permission; it
performs no writes.  We embed it as a function from the (read-only)
authentication status of the disposed participant, paired with the state
it was given, to show the state is passed through untouched.
-/

/-- Discovery database content relevant to secure discovery: the
authentication status per remote participant, from `discovery_db.rs`
usage in `secure_discovery.rs`. -/
structure DiscoveryDB where
  authenticationStatus : GuidPre → Option AuthenticationStatus

/-- From `secure_discovery.rs` lines 306-336: decide whether a
DCPSParticipant dispose message may be processed by normal Discovery,
based on the authentication status of the disposed participant.  The Rust
function takes `&self` and a read lock on the DiscoveryDB, so it cannot
modify either; we return the database alongside the permission to state
that explicitly. -/
def participant_dispose_read (db : DiscoveryDB) (guidPre : GuidPre) :
    NormalDiscoveryPermission × DiscoveryDB :=
  let permission :=
    match db.authenticationStatus guidPre with
    | none => NormalDiscoveryPermission.Allow
    | some AuthenticationStatus.Unauthenticated => NormalDiscoveryPermission.Allow
    | some _ => NormalDiscoveryPermission.Deny
  (permission, db)

/-!
C6: participant id selection at construction

`DomainParticipantInner::new` (participant.rs lines 864-887) selects the
participant id by trying to bind the SPDP unicast port for successive
ids 0, 1, 2, ... while the id is < 120, stopping at the first success.
If none binds, construction fails with OutOfResources.  Whether the port of a given
id binds is an OS question; it enters the model as the oracle
`bindable`.
-/

/-- Error kinds for participant construction, from `CreateError` in the
source (only the variant exercised here). -/
inductive CreateError where
  | OutOfResources
  | Poisoned
deriving DecidableEq, Repr

/-- The `while discovery_listener.is_none() && participant_id < 120`
loop of `DomainParticipantInner::new`, with the remaining number of ids
to try as fuel (the loop tries at most ids 0..119). -/
def selectParticipantIdLoop (bindable : Nat → Bool) : Nat → Nat → Option Nat
  | 0, _ => none
  | fuel + 1, p => if bindable p then some p else selectParticipantIdLoop bindable fuel (p + 1)

/-- Participant id selection of `DomainParticipantInner::new`: the loop
starts at id 0 and runs while the id is below 120. -/
def selectParticipantId (bindable : Nat → Bool) : Option Nat :=
  selectParticipantIdLoop bindable 120 0

/-- The participant-id-selection portion of `DomainParticipantInner::new`:
a failed selection becomes an `OutOfResources` construction error
(`create_error_out_of_resources!` at participant.rs line 886). -/
def participantConstructionId (bindable : Nat → Bool) : Except CreateError Nat :=
  match selectParticipantId bindable with
  | some p => Except.ok p
  | none => Except.error CreateError.OutOfResources

/-!
C8: ACKNACK dispatch to local writers

`DPEventLoop::handle_writer_acknack_action` (dp_event_loop.rs lines
460-485) looks up the local writer by the EntityId carried in the
ACKNACK submessage and invokes `handle_ack_nack` on it only when the
writer exists and `is_reliable()`.  Otherwise the ACKNACK is dropped.
The internal ACKNACK handling of the writer is abstracted as the parameter
`handleAckNack`.
-/

/-- An ACKNACK (or NACK_FRAG) submessage as used by the dispatch logic:
only the writer EntityId it addresses matters here; the rest of the
submessage is abstract payload. -/
structure AckSubmessage where
  writerId : EId
  payload : Nat
deriving DecidableEq, Repr

/-- A local RTPS writer as seen by the ACKNACK dispatch: its reliability
QoS (`is_reliable()`) and abstract internal state. -/
structure RtpsWriter where
  reliable : Bool
  state : Nat
deriving DecidableEq, Repr

/-- From `dp_event_loop.rs` lines 460-485: process one ACKNACK received
from the MessageReceiver channel.  Returns the updated writer map and
whether the ACKNACK handler of the writer was invoked.  `handleAckNack`
abstracts `RtpsWriter::handle_ack_nack`. -/
def handle_writer_acknack_action
    (handleAckNack : GuidPre → AckSubmessage → RtpsWriter → RtpsWriter)
    (writers : EId → Option RtpsWriter)
    (senderGuidPre : GuidPre) (acknack : AckSubmessage) :
    (EId → Option RtpsWriter) × Bool :=
  match writers acknack.writerId with
  | some foundWriter =>
      if foundWriter.reliable then
        (fun eid =>
          if eid = acknack.writerId then
            some (handleAckNack senderGuidPre acknack foundWriter)
          else writers eid,
         true)
      else (writers, false)
  | none => (writers, false)

/-!
C2: built-in endpoint matching on ParticipantUpdated

`DPEventLoop::update_participant` (dp_event_loop.rs lines 487-656)
selects, when security is enabled, which built-in endpoint init lists to
match against the remote participant purely from the authentication
status of the remote in the DiscoveryDB (lines 512-552).  The init-list
constants live in `rtps/constant.rs`, which is not part of the sources
under inspection, so their contents are modelled from the spec.
-/

/-- A built-in endpoint bit of the `available_builtin_endpoints`
bitmask, modelled abstractly as a natural number. -/
abbrev BuiltinEndpointBit := Nat

/-- One entry of a built-in endpoint init list: local writer EntityId,
remote reader EntityId (or, in the writers list, remote writer and
local reader), and the remote availability bit that gates matching. -/
structure EndpointInitEntry where
  writerEid : EId
  readerEid : EId
  endpoint : BuiltinEndpointBit
deriving DecidableEq, Repr

/-- EntityId of the SPDP built-in participant writer. -/
def spdpParticipantWriterEid : EId := 1
/-- EntityId of the SPDP built-in participant reader. -/
def spdpParticipantReaderEid : EId := 2
/-- EntityId of the SEDP built-in publications writer. -/
def sedpPublicationsWriterEid : EId := 3
/-- EntityId of the SEDP built-in publications reader. -/
def sedpPublicationsReaderEid : EId := 4
/-- EntityId of the SEDP built-in subscriptions writer. -/
def sedpSubscriptionsWriterEid : EId := 5
/-- EntityId of the SEDP built-in subscriptions reader. -/
def sedpSubscriptionsReaderEid : EId := 6
/-- EntityId of the SEDP built-in topics writer. -/
def sedpTopicWriterEid : EId := 7
/-- EntityId of the SEDP built-in topics reader. -/
def sedpTopicReaderEid : EId := 8
/-- EntityId of the built-in participant-message writer. -/
def p2pParticipantMessageWriterEid : EId := 9
/-- EntityId of the built-in participant-message reader. -/
def p2pParticipantMessageReaderEid : EId := 10
/-- EntityId of the built-in participant stateless message writer. -/
def p2pParticipantStatelessWriterEid : EId := 11
/-- EntityId of the built-in participant stateless message reader. -/
def p2pParticipantStatelessReaderEid : EId := 12
/-- EntityId of the ParticipantVolatileMessageSecure writer. -/
def p2pVolatileSecureWriterEid : EId := 13
/-- EntityId of the ParticipantVolatileMessageSecure reader. -/
def p2pVolatileSecureReaderEid : EId := 14
/-- EntityId of the secure SPDP (reliable) participant writer. -/
def spdpReliableSecureWriterEid : EId := 15
/-- EntityId of the secure SPDP (reliable) participant reader. -/
def spdpReliableSecureReaderEid : EId := 16
/-- EntityId of the secure SEDP publications writer. -/
def sedpPublicationsSecureWriterEid : EId := 17
/-- EntityId of the secure SEDP publications reader. -/
def sedpPublicationsSecureReaderEid : EId := 18
/-- EntityId of the secure SEDP subscriptions writer. -/
def sedpSubscriptionsSecureWriterEid : EId := 19
/-- EntityId of the secure SEDP subscriptions reader. -/
def sedpSubscriptionsSecureReaderEid : EId := 20
/-- EntityId of the secure participant-message writer. -/
def p2pParticipantMessageSecureWriterEid : EId := 21
/-- EntityId of the secure participant-message reader. -/
def p2pParticipantMessageSecureReaderEid : EId := 22

/-- Modelled from the spec: `STANDARD_BUILTIN_READERS_INIT_LIST` of
`rtps/constant.rs` (not among the sources) — the standard built-in
endpoints: SPDP, SEDP publications/subscriptions/topics, and the
participant-message endpoints, each gated by its availability bit. -/
def STANDARD_BUILTIN_READERS_INIT_LIST : List EndpointInitEntry :=
  [ ⟨spdpParticipantWriterEid, spdpParticipantReaderEid, 100⟩,
    ⟨sedpPublicationsWriterEid, sedpPublicationsReaderEid, 101⟩,
    ⟨sedpSubscriptionsWriterEid, sedpSubscriptionsReaderEid, 102⟩,
    ⟨sedpTopicWriterEid, sedpTopicReaderEid, 103⟩,
    ⟨p2pParticipantMessageWriterEid, p2pParticipantMessageReaderEid, 104⟩ ]

/-- Modelled from the spec: `STANDARD_BUILTIN_WRITERS_INIT_LIST` of
`rtps/constant.rs` (not among the sources); the same standard built-in
endpoint pairs, gated by the remote announcer availability bits. -/
def STANDARD_BUILTIN_WRITERS_INIT_LIST : List EndpointInitEntry :=
  [ ⟨spdpParticipantWriterEid, spdpParticipantReaderEid, 110⟩,
    ⟨sedpPublicationsWriterEid, sedpPublicationsReaderEid, 111⟩,
    ⟨sedpSubscriptionsWriterEid, sedpSubscriptionsReaderEid, 112⟩,
    ⟨sedpTopicWriterEid, sedpTopicReaderEid, 113⟩,
    ⟨p2pParticipantMessageWriterEid, p2pParticipantMessageReaderEid, 114⟩ ]

/-- Modelled from the spec: `AUTHENTICATION_BUILTIN_READERS_INIT_LIST`
of `rtps/constant.rs` (not among the sources) — only the
ParticipantStatelessMessage endpoints used during authentication. -/
def AUTHENTICATION_BUILTIN_READERS_INIT_LIST : List EndpointInitEntry :=
  [ ⟨p2pParticipantStatelessWriterEid, p2pParticipantStatelessReaderEid, 120⟩ ]

/-- Modelled from the spec: `AUTHENTICATION_BUILTIN_WRITERS_INIT_LIST`
of `rtps/constant.rs` (not among the sources). -/
def AUTHENTICATION_BUILTIN_WRITERS_INIT_LIST : List EndpointInitEntry :=
  [ ⟨p2pParticipantStatelessWriterEid, p2pParticipantStatelessReaderEid, 121⟩ ]

/-- Modelled from the spec: `SECURE_BUILTIN_READERS_INIT_LIST` of
`rtps/constant.rs` (not among the sources) — the secure variants of the
built-in endpoints, including the ParticipantVolatileMessageSecure
endpoints used for key exchange (their presence in this list is also
implied by the loop at secure_discovery.rs lines 1393-1395, which skips
exactly the volatile-secure entries of this list). -/
def SECURE_BUILTIN_READERS_INIT_LIST : List EndpointInitEntry :=
  [ ⟨spdpReliableSecureWriterEid, spdpReliableSecureReaderEid, 130⟩,
    ⟨sedpPublicationsSecureWriterEid, sedpPublicationsSecureReaderEid, 131⟩,
    ⟨sedpSubscriptionsSecureWriterEid, sedpSubscriptionsSecureReaderEid, 132⟩,
    ⟨p2pParticipantMessageSecureWriterEid, p2pParticipantMessageSecureReaderEid, 133⟩,
    ⟨p2pVolatileSecureWriterEid, p2pVolatileSecureReaderEid, 134⟩ ]

/-- Modelled from the spec: `SECURE_BUILTIN_WRITERS_INIT_LIST` of
`rtps/constant.rs` (not among the sources). -/
def SECURE_BUILTIN_WRITERS_INIT_LIST : List EndpointInitEntry :=
  [ ⟨spdpReliableSecureWriterEid, spdpReliableSecureReaderEid, 140⟩,
    ⟨sedpPublicationsSecureWriterEid, sedpPublicationsSecureReaderEid, 141⟩,
    ⟨sedpSubscriptionsSecureWriterEid, sedpSubscriptionsSecureReaderEid, 142⟩,
    ⟨p2pParticipantMessageSecureWriterEid, p2pParticipantMessageSecureReaderEid, 143⟩,
    ⟨p2pVolatileSecureWriterEid, p2pVolatileSecureReaderEid, 144⟩ ]

/-- From `dp_event_loop.rs` lines 512-552: with security compiled in,
select the built-in endpoint init lists to match for a remote
participant.  If no security plugins are configured, the standard lists
are used; otherwise the lists depend on the remote authentication
status in the DiscoveryDB. -/
def update_participant_endpoint_lists
    (securityPluginsPresent : Bool)
    (authStatus : Option AuthenticationStatus) :
    List EndpointInitEntry × List EndpointInitEntry :=
  if securityPluginsPresent then
    match authStatus with
    | some AuthenticationStatus.Authenticating =>
        (AUTHENTICATION_BUILTIN_READERS_INIT_LIST, AUTHENTICATION_BUILTIN_WRITERS_INIT_LIST)
    | some AuthenticationStatus.Authenticated =>
        (STANDARD_BUILTIN_READERS_INIT_LIST ++ SECURE_BUILTIN_READERS_INIT_LIST,
         STANDARD_BUILTIN_WRITERS_INIT_LIST ++ SECURE_BUILTIN_WRITERS_INIT_LIST)
    | some AuthenticationStatus.Unauthenticated =>
        (STANDARD_BUILTIN_READERS_INIT_LIST, STANDARD_BUILTIN_WRITERS_INIT_LIST)
    | _ => ([], [])
  else
    (STANDARD_BUILTIN_READERS_INIT_LIST, STANDARD_BUILTIN_WRITERS_INIT_LIST)

/-!
SecureDiscovery handshake machinery (C3, C4, C9)

From `secure_discovery.rs`.  The security plugin calls
(`process_handshake`, permission validation) are external collaborators
behind the `SecurityPlugins` interface and enter the model as the
`HandshakePluginEnv` parameter; whether the best-effort stateless writer
accepts a write is the oracle `writeOk`.
-/

/-- Handshake sub-state per remote, from
`authentication_builtin::DiscHandshakeState`. -/
inductive DiscHandshakeState where
  | PendingRequestSend
  | PendingRequestMessage
  | PendingReplyMessage
  | PendingFinalMessage
  | CompletedWithFinalMessageSent
  | CompletedWithFinalMessageReceived
deriving DecidableEq, Repr

/-- Validation outcomes of the authentication plugin operations, from
`security::authentication::ValidationOutcome`. -/
inductive ValidationOutcome where
  | Ok
  | PendingHandshakeRequest
  | PendingHandshakeMessage
  | OkFinalMessage
deriving DecidableEq, Repr

/-- Abstract security error. -/
abbrev SecError := Nat

/-- Abstract handshake message token
(`HandshakeMessageToken` contents). -/
abbrev HandshakeToken := Nat

/-- Type `rpc::SampleIdentity`: a writer GUID (abstracted) plus a sequence
number. -/
structure MessageIdentity where
  writerGuid : Nat
  sequenceNumber : Nat
deriving DecidableEq, Repr

/-- A `ParticipantStatelessMessage` as used by the handshake logic: its
message identity, its related message identity, and the handshake token
it carries (if any).  The generic-message destination checks happen
before the functions modelled here are reached. -/
structure StatelessMessage where
  messageIdentity : MessageIdentity
  relatedMessageIdentity : MessageIdentity
  handshakeToken : Option HandshakeToken
deriving DecidableEq, Repr

/-- Operation `ParticipantGenericMessage::source_guid_prefix`: the prefix of the
writer GUID of the message identity (GUIDs are abstracted to their
prefixes). -/
def StatelessMessage.sourceGuidPre (m : StatelessMessage) : GuidPre :=
  m.messageIdentity.writerGuid

/-- From `secure_discovery.rs` lines 66-67: how many times an
authentication message is resent if we get no answer. -/
def STORED_AUTH_MESSAGE_MAX_RESEND_COUNT : Nat := 10

/-- A stored authentication message with its remaining resend counter
(`StoredAuthenticationMessage`). -/
structure StoredAuthMessage where
  message : StatelessMessage
  remainingResendCounter : Nat
deriving DecidableEq, Repr

/-- Operation `StoredAuthenticationMessage::new`: store a message with the
counter at its maximum. -/
def StoredAuthMessage.new (message : StatelessMessage) : StoredAuthMessage :=
  { message := message, remainingResendCounter := STORED_AUTH_MESSAGE_MAX_RESEND_COUNT }

/-- Association-list lookup, modelling `HashMap::get`. -/
def alLookup (l : List (GuidPre × StoredAuthMessage)) (g : GuidPre) :
    Option StoredAuthMessage :=
  (l.find? (fun p => p.1 == g)).map (fun p => p.2)

/-- Association-list insert, modelling `HashMap::insert` (replaces any
existing entry for the key). -/
def alInsert (l : List (GuidPre × StoredAuthMessage)) (g : GuidPre)
    (v : StoredAuthMessage) : List (GuidPre × StoredAuthMessage) :=
  (g, v) :: l.filter (fun p => p.1 != g)

/-- Association-list removal, modelling `HashMap::remove`. -/
def alRemove (l : List (GuidPre × StoredAuthMessage)) (g : GuidPre) :
    List (GuidPre × StoredAuthMessage) :=
  l.filter (fun p => p.1 != g)

/-- Association-list in-place modification, modelling
`HashMap::get_mut` followed by a field update (no-op when the key is
absent). -/
def alModify (l : List (GuidPre × StoredAuthMessage)) (g : GuidPre)
    (f : StoredAuthMessage → StoredAuthMessage) : List (GuidPre × StoredAuthMessage) :=
  l.map (fun p => if p.1 == g then (p.1, f p.2) else p)

/-- The SecureDiscovery state touched by the handshake logic: handshake
sub-states, stored (unanswered) authentication messages, the
authentication statuses in the DiscoveryDB, and the generic-message
sequence-number counter of the helper. -/
structure SecureDiscoveryState where
  handshakeStates : GuidPre → Option DiscHandshakeState
  storedMessages : List (GuidPre × StoredAuthMessage)
  authStatuses : GuidPre → Option AuthenticationStatus
  nextSeq : Nat

/-- The security-plugin and access-control operations used by the
handshake functions, abstracted as oracles (they are behind the
`SecurityPlugins` interface, outside the embedded sources). -/
structure HandshakePluginEnv where
  processHandshake :
    GuidPre → HandshakeToken → Except SecError (ValidationOutcome × Option HandshakeToken)
  validatePermissions : GuidPre → Except SecError Unit
  isAccessProtected : Bool
  checkRemoteParticipant : GuidPre → Except SecError Unit

/-- From `secure_discovery.rs` lines 1594-1612: check whether a received
stateless message field `related_message_identity` equals the identity of
the message we last sent to that peer; false when no stored message
exists. -/
def check_is_stateless_msg_related_to_our_msg
    (s : SecureDiscoveryState) (message : StatelessMessage)
    (senderGuidPre : GuidPre) : Bool :=
  match alLookup s.storedMessages senderGuidPre with
  | none => false
  | some stored => message.relatedMessageIdentity == stored.message.messageIdentity

/-- From `secure_discovery.rs` lines 681-693: reset the stored
resend counter of the stored message to the maximum, when it exists. -/
def reset_stored_message_resend_counter
    (s : SecureDiscoveryState) (remoteGuidPre : GuidPre) : SecureDiscoveryState :=
  let resetOne : StoredAuthMessage → StoredAuthMessage := fun m =>
    { m with remainingResendCounter := STORED_AUTH_MESSAGE_MAX_RESEND_COUNT }
  { s with storedMessages := alModify s.storedMessages remoteGuidPre resetOne }

/-- From `secure_discovery.rs` lines 547-563: set the authentication
status of the remote in the DiscoveryDB (the event-loop notification
is a channel send with no SecureDiscovery state effect). -/
def update_participant_authentication_status_and_notify_dp
    (s : SecureDiscoveryState) (remoteGuidPre : GuidPre)
    (newStatus : AuthenticationStatus) : SecureDiscoveryState :=
  { s with authStatuses := fun g =>
      if g = remoteGuidPre then some newStatus else s.authStatuses g }

/-- From `secure_discovery.rs` lines 1174-1242: after a successful
handshake, validate the permissions of the remote and (when access is
protected) its right to join the domain; failure of either check sets
the remote status to Rejected, success sets it to Authenticated. -/
def on_remote_participant_authenticated
    (env : HandshakePluginEnv) (s : SecureDiscoveryState)
    (remoteGuidPre : GuidPre) : SecureDiscoveryState :=
  match env.validatePermissions remoteGuidPre with
  | Except.error _ =>
      update_participant_authentication_status_and_notify_dp s remoteGuidPre
        AuthenticationStatus.Rejected
  | Except.ok _ =>
      if env.isAccessProtected then
        match env.checkRemoteParticipant remoteGuidPre with
        | Except.error _ =>
            update_participant_authentication_status_and_notify_dp s remoteGuidPre
              AuthenticationStatus.Rejected
        | Except.ok _ =>
            update_participant_authentication_status_and_notify_dp s remoteGuidPre
              AuthenticationStatus.Authenticated
      else
        update_participant_authentication_status_and_notify_dp s remoteGuidPre
          AuthenticationStatus.Authenticated

/-- From `secure_discovery.rs` lines 1636-1654 and 1733-1772
(`new_stateless_message` with `ParticipantGenericMessageHelper`): build
a handshake message whose identity uses the local participant GUID and
the next sequence number of the helper, related to the received message. -/
def new_stateless_message (localGuid : Nat) (seq : Nat)
    (relatedMessage : StatelessMessage) (token : HandshakeToken) : StatelessMessage :=
  { messageIdentity := { writerGuid := localGuid, sequenceNumber := seq },
    relatedMessageIdentity := relatedMessage.messageIdentity,
    handshakeToken := some token }

/-- From `secure_discovery.rs` lines 868-975
(`handshake_on_pending_reply_message`): process a received message while
we expect a handshake reply.  Drops unrelated or token-less messages;
on a successful plugin validation sends and stores the final message,
marks the handshake completed and runs the post-authentication checks;
on a plugin error resets the resend counter of the stored message. -/
def handshake_on_pending_reply_message
    (localGuid : Nat) (env : HandshakePluginEnv)
    (s : SecureDiscoveryState) (receivedMessage : StatelessMessage) : SecureDiscoveryState :=
  let remoteGuidPre := receivedMessage.sourceGuidPre
  if check_is_stateless_msg_related_to_our_msg s receivedMessage remoteGuidPre then
    match receivedMessage.handshakeToken with
    | none => s
    | some handshakeToken =>
      match env.processHandshake remoteGuidPre handshakeToken with
      | Except.ok (ValidationOutcome.OkFinalMessage, some finalMessageToken) =>
          let finalMessage :=
            new_stateless_message localGuid s.nextSeq receivedMessage finalMessageToken
          let s1 : SecureDiscoveryState :=
            { s with
              nextSeq := s.nextSeq + 1,
              storedMessages :=
                alInsert s.storedMessages remoteGuidPre (StoredAuthMessage.new finalMessage),
              handshakeStates := fun g =>
                if g = remoteGuidPre then some DiscHandshakeState.CompletedWithFinalMessageSent
                else s.handshakeStates g }
          on_remote_participant_authenticated env s1 remoteGuidPre
      | Except.ok _ => s
      | Except.error _ => reset_stored_message_resend_counter s remoteGuidPre
  else s

/-- From `secure_discovery.rs` lines 977-1060
(`handshake_on_pending_final_message`): process a received message while
we expect the final handshake message.  Drops unrelated or token-less
messages; on a successful plugin validation marks the handshake
completed, removes the stored reply message and runs the
post-authentication checks; on a plugin error resets the stored
resend counter of the stored message. -/
def handshake_on_pending_final_message
    (env : HandshakePluginEnv)
    (s : SecureDiscoveryState) (receivedMessage : StatelessMessage) : SecureDiscoveryState :=
  let remoteGuidPre := receivedMessage.sourceGuidPre
  if check_is_stateless_msg_related_to_our_msg s receivedMessage remoteGuidPre then
    match receivedMessage.handshakeToken with
    | none => s
    | some handshakeToken =>
      match env.processHandshake remoteGuidPre handshakeToken with
      | Except.ok (ValidationOutcome.Ok, none) =>
          let s1 : SecureDiscoveryState :=
            { s with
              storedMessages := alRemove s.storedMessages remoteGuidPre,
              handshakeStates := fun g =>
                if g = remoteGuidPre then
                  some DiscHandshakeState.CompletedWithFinalMessageReceived
                else s.handshakeStates g }
          on_remote_participant_authenticated env s1 remoteGuidPre
      | Except.ok _ => s
      | Except.error _ => reset_stored_message_resend_counter s remoteGuidPre
  else s

/-- From `secure_discovery.rs` lines 646-679
(`resend_unanswered_authentication_messages`): one periodic resend pass.
Every stored message whose handshake state is not
CompletedWithFinalMessageSent is re-sent; a successful send (oracle
`writeOk`) decrements its counter.  Afterwards messages whose counter
reached zero are dropped (`retain`). -/
def resend_unanswered_authentication_messages
    (writeOk : GuidPre → Bool) (s : SecureDiscoveryState) : SecureDiscoveryState :=
  { s with storedMessages :=
      (s.storedMessages.map (fun p =>
        if s.handshakeStates p.1 ≠ some DiscHandshakeState.CompletedWithFinalMessageSent ∧
            writeOk p.1 = true then
          (p.1, { p.2 with remainingResendCounter := p.2.remainingResendCounter - 1 })
        else p)).filter (fun p => 0 < p.2.remainingResendCounter) }

/-- A concrete stateless message used to exercise the resend logic. -/
def exampleStatelessMessage : StatelessMessage :=
  { messageIdentity := { writerGuid := 0, sequenceNumber := 1 },
    relatedMessageIdentity := { writerGuid := 0, sequenceNumber := 0 },
    handshakeToken := none }

/-- A concrete SecureDiscovery state with one stored authentication
message (resend counter 2) for remote 5, used to exercise the resend
logic. -/
def exampleResendState : SecureDiscoveryState :=
  { handshakeStates := fun _ => some DiscHandshakeState.PendingReplyMessage,
    storedMessages := [(5, { message := exampleStatelessMessage, remainingResendCounter := 2 })],
    authStatuses := fun _ => none,
    nextSeq := 1 }

/-- A concrete SecureDiscovery state with one stored authentication
message (resend counter 3) for remote 5, used to exercise the
counter-reset logic. -/
def exampleResetState : SecureDiscoveryState :=
  { handshakeStates := fun _ => some DiscHandshakeState.PendingReplyMessage,
    storedMessages := [(5, { message := exampleStatelessMessage, remainingResendCounter := 3 })],
    authStatuses := fun _ => none,
    nextSeq := 2 }

/-- A concrete received handshake message from remote 5, related to
`exampleStatelessMessage` and carrying token 7. -/
def exampleIncomingReply : StatelessMessage :=
  { messageIdentity := { writerGuid := 5, sequenceNumber := 1 },
    relatedMessageIdentity := { writerGuid := 0, sequenceNumber := 1 },
    handshakeToken := some 7 }

/-- A concrete plugin environment whose `process_handshake` always
fails. -/
def exampleFailingEnv : HandshakePluginEnv :=
  { processHandshake := fun _ _ => Except.error 4,
    validatePermissions := fun _ => Except.ok (),
    isAccessProtected := false,
    checkRemoteParticipant := fun _ => Except.ok () }

/-- A concrete plugin environment whose `process_handshake` always
errors, with no stored messages anywhere (used for the drop case). -/
def exampleEmptyState : SecureDiscoveryState :=
  { handshakeStates := fun _ => some DiscHandshakeState.PendingReplyMessage,
    storedMessages := [],
    authStatuses := fun _ => none,
    nextSeq := 1 }

/-!
C7: find_topic

`DomainParticipantInner::find_topic` (participant.rs lines 1106-1145)
repeatedly checks the DiscoveryDB for a topic of the given name,
sleeping on the DB-event channel between checks, until the timeout
expires.  Real time and the event channel are abstracted into the list
of DB snapshots the loop observes at its successive checks; an
exhausted list is the expired timeout.
-/

/-- Topic kind, from `TopicKind`. -/
inductive TopicKind where
  | WithKey
  | NoKey
deriving DecidableEq, Repr

/-- Discovered topic data as used by `find_topic_in_discovery_db`:
topic name, type name, optional key descriptor, and QoS (names and QoS
abstracted to naturals). -/
structure DiscoveredTopicData where
  topicName : Nat
  typeName : Nat
  key : Option Nat
  qos : Nat
deriving DecidableEq, Repr

/-- A user-facing Topic as built by `create_topic` from discovered
data. -/
structure Topic where
  name : Nat
  typeDesc : Nat
  qos : Nat
  kind : TopicKind
deriving DecidableEq, Repr

/-- The topic view of the DiscoveryDB. -/
structure TopicDB where
  topics : List DiscoveredTopicData
deriving DecidableEq, Repr

/-- Modelled from the spec: `DiscoveryDB::get_topic` (discovery_db.rs is
not among the sources) — look up a discovered topic by name. -/
def TopicDB.getTopic (db : TopicDB) (name : Nat) : Option DiscoveredTopicData :=
  db.topics.find? (fun d => d.topicName == name)

/-- Function `build_topic_fn` of `find_topic_in_discovery_db` (participant.rs
lines 1159-1168): build a Topic from DiscoveredTopicData; the topic
kind is WithKey exactly when the discovered data has a key. -/
def build_topic_fn (d : DiscoveredTopicData) : Topic :=
  { name := d.topicName,
    typeDesc := d.typeName,
    qos := d.qos,
    kind := match d.key with
      | some _ => TopicKind.WithKey
      | none => TopicKind.NoKey }

/-- From participant.rs lines 1106-1145 and 1147-1176: the find_topic
loop over the DB snapshots it observes; an empty snapshot list means
the deadline passed without the DB event firing again. -/
def find_topic (snapshots : List TopicDB) (name : Nat) : Except CreateError (Option Topic) :=
  match snapshots with
  | [] => Except.ok none
  | db :: rest =>
    match db.getTopic name with
    | some d => Except.ok (some (build_topic_fn d))
    | none => find_topic rest name

/-!
Cryptographic transforms (C1, C5)

From `crypto_transform.rs`.  The wire serializer (speedy) is an
external collaborator whose contract is the round-trip law of the spec
`parse(serialize(m)) = m`; it is modelled transparently: the byte
image of a submessage is the one-element token list `[submessage]`,
so concatenation of serialized submessages is the submessage list
itself, and the `original_bytes` of a received submessage is its own byte
image (spec section 9: splicing code "must preserve the endianness and original
byte image of each inner submessage").  The AES
GCM/GMAC primitive is abstracted behind the `AeadCipher` interface
(spec section 1); it is modelled by a MAC that is a function of key,
initialization vector and data, and an invertible keyed transform.
-/

/-- Submessage body endianness (flag bit 0). -/
inductive Endianness where
  | big
  | little
deriving DecidableEq, Repr

/-- Enum `BuiltinCryptoTransformationKind` of the built-in cryptographic
plugin. -/
inductive TransformationKind where
  | KIND_NONE
  | AES128_GMAC
  | AES256_GMAC
  | AES128_GCM
  | AES256_GCM
deriving DecidableEq, Repr

/-- The RTPS message header: protocol version, vendor id and the
GUID prefix of the sender (abstracted to naturals). -/
structure RtpsHeader where
  protocolVersion : Nat
  vendorId : Nat
  guidPre : Nat
deriving DecidableEq, Repr

/-- The payload of an INFO_SOURCE submessage; `InfoSource::from(header)`
copies the header fields. -/
structure InfoSourceData where
  protocolVersion : Nat
  vendorId : Nat
  guidPre : Nat
deriving DecidableEq, Repr

/-- Conversion `InfoSource::from` on an RTPS header. -/
def InfoSourceData.fromHeader (h : RtpsHeader) : InfoSourceData :=
  { protocolVersion := h.protocolVersion, vendorId := h.vendorId, guidPre := h.guidPre }

/-- The builtin crypto header carried by SEC_PREFIX and SRTPS_PREFIX
submessages: transformation kind, transformation key id, and the
session initialization vector (`BuiltinCryptoHeader`). -/
structure CryptoHeaderB where
  transformationKind : TransformationKind
  transformationKeyId : Nat
  initializationVector : Nat
deriving DecidableEq, Repr

/-- One receiver-specific MAC of a crypto footer. -/
structure ReceiverSpecificMac where
  receiverMacKeyId : Nat
  mac : Nat
deriving DecidableEq, Repr

/-- The builtin crypto footer carried by SEC_POSTFIX and SRTPS_POSTFIX
submessages: the common MAC plus receiver-specific MACs
(`BuiltinCryptoFooter`). -/
structure CryptoFooterB where
  commonMac : Nat
  receiverSpecificMacs : List ReceiverSpecificMac
deriving DecidableEq, Repr

/-- RTPS submessages as handled by the cryptographic transforms: the
INFO_SOURCE interpreter submessage, abstract writer/reader/interpreter
submessages, and the security submessages.  SEC_BODY carries the
ciphertext as crypto content.  Each submessage records its body
endianness (flag bit 0). -/
inductive Submessage where
  | infoSource (d : InfoSourceData) (e : Endianness)
  | writerSub (payload : Nat) (e : Endianness)
  | readerSub (payload : Nat) (e : Endianness)
  | interpreterOther (payload : Nat) (e : Endianness)
  | secPre (h : CryptoHeaderB) (e : Endianness)
  | secPost (f : CryptoFooterB) (e : Endianness)
  | secBody (content : List Submessage) (e : Endianness)
  | srtpsPre (h : CryptoHeaderB) (e : Endianness)
  | srtpsPost (f : CryptoFooterB) (e : Endianness)

/-- An RTPS message: header plus submessage sequence. -/
structure Message where
  header : RtpsHeader
  submessages : List Submessage

/-- Modelled from the spec: the wire serializer (speedy `write_to_vec`,
outside the embedded sources) with the round-trip law of the spec — the
byte image of a submessage is the one-element token list holding it. -/
def writeToVec (s : Submessage) : List Submessage := [s]

/-- Modelled from the spec: `original_bytes` of a received submessage —
its own preserved byte image (spec section 9 requires the original byte
image be preserved for MAC validation). -/
def originalBytes (s : Submessage) : List Submessage := [s]

/-- A structural fingerprint of a submessage, used by the modelled MAC
so that MACs depend on the data they cover. -/
def Submessage.fingerprint : Submessage → Nat
  | Submessage.infoSource d e =>
      100 + d.protocolVersion * 3 + d.vendorId * 5 + d.guidPre * 7 +
        (match e with | Endianness.big => 0 | Endianness.little => 1)
  | Submessage.writerSub p e =>
      200 + p * 3 + (match e with | Endianness.big => 0 | Endianness.little => 1)
  | Submessage.readerSub p e =>
      300 + p * 3 + (match e with | Endianness.big => 0 | Endianness.little => 1)
  | Submessage.interpreterOther p e =>
      400 + p * 3 + (match e with | Endianness.big => 0 | Endianness.little => 1)
  | Submessage.secPre h e =>
      500 + h.transformationKeyId * 3 + h.initializationVector * 5 +
        (match e with | Endianness.big => 0 | Endianness.little => 1)
  | Submessage.secPost f e =>
      600 + f.commonMac * 3 + f.receiverSpecificMacs.length * 5 +
        (match e with | Endianness.big => 0 | Endianness.little => 1)
  | Submessage.secBody c e =>
      700 + c.length * 3 + (match e with | Endianness.big => 0 | Endianness.little => 1)
  | Submessage.srtpsPre h e =>
      800 + h.transformationKeyId * 3 + h.initializationVector * 5 +
        (match e with | Endianness.big => 0 | Endianness.little => 1)
  | Submessage.srtpsPost f e =>
      900 + f.commonMac * 3 + f.receiverSpecificMacs.length * 5 +
        (match e with | Endianness.big => 0 | Endianness.little => 1)

/-- Modelled from the spec: the GMAC computation of the abstract
`AeadCipher` — a MAC depending on key, initialization vector and
data. -/
def computeMac (key iv : Nat) (data : List Submessage) : Nat :=
  (key + 1) * 7919 + (iv + 1) * 104729 +
    data.foldl (fun a s => a * 31 + s.fingerprint) 3

/-- Modelled from the spec: MAC validation of the abstract cipher —
succeeds exactly when the MAC matches the data. -/
def validateMac (key iv : Nat) (data : List Submessage) (mac : Nat) : Except SecError Unit :=
  if mac = computeMac key iv data then Except.ok () else Except.error 21

/-- Modelled from the spec: the keyed GCM encryption transform of the
abstract cipher (an invertible data transform plus a MAC over the
ciphertext). -/
def aesEncrypt (key iv : Nat) (plaintext : List Submessage) : List Submessage × Nat :=
  (plaintext.reverse, computeMac key iv plaintext.reverse)

/-- Modelled from the spec: authenticated GCM decryption — checks the
MAC over the ciphertext, then inverts the transform:
`decrypt(encrypt(p, k), k) = p`. -/
def aesDecrypt (key iv : Nat) (ciphertext : List Submessage) (mac : Nat) :
    Except SecError (List Submessage) :=
  if mac = computeMac key iv ciphertext then Except.ok ciphertext.reverse
  else Except.error 22

/-- A receiver-specific signing key of the encoding key material. -/
structure ReceiverSpecificKey where
  keyId : Nat
  key : Nat
deriving DecidableEq, Repr

/-- Struct `EncryptSessionMaterials` returned by
`session_encoding_materials`. -/
structure EncryptSessionMaterials where
  keyId : Nat
  transformationKind : TransformationKind
  sessionKey : Nat
  initializationVector : Nat
  receiverSpecificKeys : List ReceiverSpecificKey
deriving DecidableEq, Repr

/-- The decode-side key material returned by
`session_decode_crypto_materials`. -/
structure DecodeKeyMaterial where
  keyId : Nat
  transformationKind : TransformationKind
  sessionKey : Nat
  receiverSpecificKey : Option ReceiverSpecificKey
deriving DecidableEq, Repr

/-- The key registry of `CryptographicBuiltin` as seen by the
transforms: `session_encoding_materials` per sending handle and
receiver list, and `session_decode_crypto_materials` per sending handle
and transformation key id. -/
structure CryptographicBuiltin where
  encodeMaterials : Nat → List Nat → Option EncryptSessionMaterials
  decodeMaterials : Nat → Nat → Option DecodeKeyMaterial

/-- Modelled from the spec: `encode_gmac` of `encode.rs` (not among the
sources) — the crypto footer with the common MAC over the plaintext and
one receiver-specific MAC per receiver-specific key. -/
def encode_gmac (sessionKey iv : Nat) (plaintext : List Submessage)
    (receiverSpecificKeys : List ReceiverSpecificKey) : CryptoFooterB :=
  { commonMac := computeMac sessionKey iv plaintext,
    receiverSpecificMacs := receiverSpecificKeys.map (fun rk =>
      { receiverMacKeyId := rk.keyId, mac := computeMac rk.key iv plaintext }) }

/-- Modelled from the spec: `encode_gcm` of `encode.rs` (not among the
sources) — encrypt the plaintext into a SEC_BODY submessage and build
the footer with the GCM tag as common MAC and receiver-specific MACs
over the ciphertext. -/
def encode_gcm (sessionKey iv : Nat) (plaintext : List Submessage)
    (receiverSpecificKeys : List ReceiverSpecificKey) : Submessage × CryptoFooterB :=
  let (ciphertext, tag) := aesEncrypt sessionKey iv plaintext
  (Submessage.secBody ciphertext Endianness.big,
   { commonMac := tag,
     receiverSpecificMacs := receiverSpecificKeys.map (fun rk =>
       { receiverMacKeyId := rk.keyId, mac := computeMac rk.key iv ciphertext }) })

/-- Modelled from the spec: `find_receiver_specific_mac` of `decode.rs`
(not among the sources) — when the decode key material carries a
receiver-specific key, the matching MAC must be present in the footer,
else error; without such a key no receiver-specific validation
happens. -/
def find_receiver_specific_mac (rkOpt : Option ReceiverSpecificKey)
    (receiverSpecificMacs : List ReceiverSpecificMac) :
    Except SecError (Option (Nat × Nat)) :=
  match rkOpt with
  | none => Except.ok none
  | some rk =>
    match receiverSpecificMacs.find? (fun m => m.receiverMacKeyId == rk.keyId) with
    | some m => Except.ok (some (rk.key, m.mac))
    | none => Except.error 23

/-- The result of `encode_submessage` (`EncodedSubmessage`): either the
plain submessage (transformation kind NONE) or a SEC_PREFIX / body /
SEC_POSTFIX triple. -/
inductive EncodedSubmessage where
  | Unencoded (s : Submessage)
  | Encoded (pre : Submessage) (body : Submessage) (post : Submessage)

/-- From `crypto_transform.rs` lines 33-105
(`CryptographicBuiltin::encode_submessage`): serialize the plain
submessage, fetch the session encoding materials, and either pass the
submessage through (NONE), sign it (GMAC), or encrypt it (GCM),
bracketing with SEC_PREFIX and SEC_POSTFIX submessages created with
big-endian serialization (spec 9.5.2.3, 9.5.2.5). -/
def encode_submessage (c : CryptographicBuiltin) (plainRtpsSubmessage : Submessage)
    (sendingEndpointCryptoHandle : Nat) (receivingEndpointCryptoHandleList : List Nat) :
    Except SecError EncodedSubmessage :=
  let plaintext := writeToVec plainRtpsSubmessage
  match c.encodeMaterials sendingEndpointCryptoHandle receivingEndpointCryptoHandleList with
  | none => Except.error 24
  | some em =>
    match em.transformationKind with
    | TransformationKind.KIND_NONE =>
        Except.ok (EncodedSubmessage.Unencoded plainRtpsSubmessage)
    | TransformationKind.AES128_GMAC | TransformationKind.AES256_GMAC =>
        let cryptoFooter :=
          encode_gmac em.sessionKey em.initializationVector plaintext em.receiverSpecificKeys
        Except.ok (EncodedSubmessage.Encoded
          (Submessage.secPre
            ⟨em.transformationKind, em.keyId, em.initializationVector⟩ Endianness.big)
          plainRtpsSubmessage
          (Submessage.secPost cryptoFooter Endianness.big))
    | TransformationKind.AES128_GCM | TransformationKind.AES256_GCM =>
        let encodedAndFooter :=
          encode_gcm em.sessionKey em.initializationVector plaintext em.receiverSpecificKeys
        Except.ok (EncodedSubmessage.Encoded
          (Submessage.secPre
            ⟨em.transformationKind, em.keyId, em.initializationVector⟩ Endianness.big)
          encodedAndFooter.1
          (Submessage.secPost encodedAndFooter.2 Endianness.big))

/-- From `crypto_transform.rs` lines 289-397
(`CryptoTransform::encode_rtps_message`): prepend an INFO_SOURCE built
from the header (big-endian), serialize and concatenate all
submessages, fetch encoding materials for the sending participant, sign
(NONE and GMAC keep the plain submessages) or encrypt (GCM produces one
SEC_BODY), and bracket with SRTPS_PREFIX and SRTPS_POSTFIX submessages
created with big-endian serialization. -/
def encode_rtps_message (c : CryptographicBuiltin) (m : Message)
    (sendingParticipantCryptoHandle : Nat)
    (receivingParticipantCryptoHandleList : List Nat) : Except SecError Message :=
  let infoSourceSub := Submessage.infoSource (InfoSourceData.fromHeader m.header) Endianness.big
  let submessagesWithInfoSource := [infoSourceSub] ++ m.submessages
  let plaintext := (submessagesWithInfoSource.map writeToVec).flatten
  match c.encodeMaterials sendingParticipantCryptoHandle
      receivingParticipantCryptoHandleList with
  | none => Except.error 25
  | some em =>
    let encodedAndFooter : List Submessage × CryptoFooterB :=
      match em.transformationKind with
      | TransformationKind.KIND_NONE =>
          (submessagesWithInfoSource,
           encode_gmac em.sessionKey em.initializationVector plaintext em.receiverSpecificKeys)
      | TransformationKind.AES128_GMAC | TransformationKind.AES256_GMAC =>
          (submessagesWithInfoSource,
           encode_gmac em.sessionKey em.initializationVector plaintext em.receiverSpecificKeys)
      | TransformationKind.AES128_GCM | TransformationKind.AES256_GCM =>
          let bodyAndFooter :=
            encode_gcm em.sessionKey em.initializationVector plaintext em.receiverSpecificKeys
          ([bodyAndFooter.1], bodyAndFooter.2)
    Except.ok
      { header := m.header,
        submessages :=
          [Submessage.srtpsPre
            ⟨em.transformationKind, em.keyId, em.initializationVector⟩ Endianness.big] ++
          encodedAndFooter.1 ++
          [Submessage.srtpsPost encodedAndFooter.2 Endianness.big] }

/-- Split a submessage list into its first element, middle, and last
element (none when fewer than two submessages), mirroring the slice
pattern `[first, middle @ .., last]` of `decode_rtps_message`. -/
def splitEndsAux (x : Submessage) : List Submessage → List Submessage × Submessage
  | [] => ([], x)
  | y :: rest =>
    let midLast := splitEndsAux y rest
    (x :: midLast.1, midLast.2)

/-- See `splitEndsAux`. -/
def splitEnds : List Submessage → Option (Submessage × List Submessage × Submessage)
  | [] => none
  | [_] => none
  | first :: y :: rest =>
    let midLast := splitEndsAux y rest
    some (first, midLast.1, midLast.2)

/-- From `crypto_transform.rs` lines 399-567
(`CryptoTransform::decode_rtps_message`): expect SRTPS_PREFIX, content,
SRTPS_POSTFIX; fetch decode key material for the sending participant
and the key id of the header; check key id and transformation kind; resolve
the receiver-specific MAC; then for NONE/GMAC validate the MACs over
the concatenated original byte images and strip the INFO_SOURCE, or for
GCM validate the receiver-specific MAC over the ciphertext, decrypt,
and parse INFO_SOURCE plus the remaining submessages; finally the
INFO_SOURCE must match the outer RTPS header. -/
def decode_rtps_message (c : CryptographicBuiltin) (m : Message)
    (_receivingParticipantCryptoHandle : Nat)
    (sendingParticipantCryptoHandle : Nat) : Except SecError Message :=
  match splitEnds m.submessages with
  | some (Submessage.srtpsPre cryptoHeader _, encodedContent,
          Submessage.srtpsPost cryptoFooter _) =>
    match c.decodeMaterials sendingParticipantCryptoHandle
        cryptoHeader.transformationKeyId with
    | none => Except.error 26
    | some dm =>
      if cryptoHeader.transformationKeyId ≠ dm.keyId then Except.error 27
      else if cryptoHeader.transformationKind ≠ dm.transformationKind then Except.error 28
      else
        match find_receiver_specific_mac dm.receiverSpecificKey
            cryptoFooter.receiverSpecificMacs with
        | Except.error e => Except.error e
        | Except.ok receiverSpecificKeyAndMac =>
          let iv := cryptoHeader.initializationVector
          let contentResult : Except SecError (List Submessage × InfoSourceData) :=
            match dm.transformationKind with
            | TransformationKind.KIND_NONE | TransformationKind.AES128_GMAC
            | TransformationKind.AES256_GMAC =>
              match encodedContent with
              | Submessage.infoSource infoSourceData _ :: restSubmessages =>
                let serializedSubmessages := (encodedContent.map originalBytes).flatten
                match validateMac dm.sessionKey iv serializedSubmessages
                    cryptoFooter.commonMac with
                | Except.error e => Except.error e
                | Except.ok _ =>
                  match receiverSpecificKeyAndMac with
                  | some keyAndMac =>
                    match validateMac keyAndMac.1 iv serializedSubmessages keyAndMac.2 with
                    | Except.error e => Except.error e
                    | Except.ok _ => Except.ok (restSubmessages, infoSourceData)
                  | none => Except.ok (restSubmessages, infoSourceData)
              | _ => Except.error 29
            | TransformationKind.AES128_GCM | TransformationKind.AES256_GCM =>
              match encodedContent with
              | [Submessage.secBody ciphertext _] =>
                let rsCheck : Except SecError Unit :=
                  match receiverSpecificKeyAndMac with
                  | some keyAndMac => validateMac keyAndMac.1 iv ciphertext keyAndMac.2
                  | none => Except.ok ()
                match rsCheck with
                | Except.error e => Except.error e
                | Except.ok _ =>
                  match aesDecrypt dm.sessionKey iv ciphertext cryptoFooter.commonMac with
                  | Except.error e => Except.error e
                  | Except.ok plaintext =>
                    match plaintext with
                    | Submessage.infoSource infoSourceData _ :: restSubmessages =>
                        Except.ok (restSubmessages, infoSourceData)
                    | _ => Except.error 30
              | _ => Except.error 31
          match contentResult with
          | Except.error e => Except.error e
          | Except.ok submessagesAndInfoSource =>
            if InfoSourceData.fromHeader m.header = submessagesAndInfoSource.2 then
              Except.ok { header := m.header, submessages := submessagesAndInfoSource.1 }
            else Except.error 32
  | _ => Except.error 33

/-- Compatibility of the decode-side receiver-specific key with the
encode-side receiver-specific keys: either the decoder expects no
receiver-specific MAC, or its key (id and key value) is the one the
encoder finds first for that id. -/
def receiverKeyCompatible : Option ReceiverSpecificKey → List ReceiverSpecificKey → Prop
  | none, _ => True
  | some rk, keys => keys.find? (fun k => k.keyId == rk.keyId) = some rk

/-- Concrete encoding key material (AES256 GCM with one
receiver-specific key) used to exercise the transforms. -/
def exampleEncMaterials : EncryptSessionMaterials :=
  { keyId := 42,
    transformationKind := TransformationKind.AES256_GCM,
    sessionKey := 9,
    initializationVector := 5,
    receiverSpecificKeys := [{ keyId := 8, key := 13 }] }

/-- Concrete decoding key material matching `exampleEncMaterials`. -/
def exampleDecMaterials : DecodeKeyMaterial :=
  { keyId := 42,
    transformationKind := TransformationKind.AES256_GCM,
    sessionKey := 9,
    receiverSpecificKey := some { keyId := 8, key := 13 } }

/-- A concrete crypto-plugin key registry: participant handle 1 holds
`exampleEncMaterials` for encoding, and the matching decode material
under key id 42. -/
def exampleCrypto : CryptographicBuiltin :=
  { encodeMaterials := fun h _ => if h = 1 then some exampleEncMaterials else none,
    decodeMaterials := fun h kid =>
      if h = 1 ∧ kid = 42 then some exampleDecMaterials else none }

/-- A concrete RTPS message with one little-endian writer
submessage. -/
def exampleMessage : Message :=
  { header := { protocolVersion := 2, vendorId := 3, guidPre := 77 },
    submessages := [Submessage.writerSub 4 Endianness.little] }

end RustDDS

namespace RustDDS

/-!
Theorems
-/

/-- C10: a dispose message on the DCPSParticipant topic is allowed
(`participant_dispose_read` returns Allow) if and only if the disposed
authentication status of the participant is absent or Unauthenticated, and
the function never modifies the discovery state. -/
theorem participant_dispose_read_spec (db : DiscoveryDB) (guidPre : GuidPre) :
    ((participant_dispose_read db guidPre).1 = NormalDiscoveryPermission.Allow ↔
      (db.authenticationStatus guidPre = none ∨
       db.authenticationStatus guidPre = some AuthenticationStatus.Unauthenticated)) ∧
    (participant_dispose_read db guidPre).2 = db := by
  refine ⟨?_, rfl⟩
  unfold participant_dispose_read
  rcases h : db.authenticationStatus guidPre with _ | st
  · simp
  · cases st <;> simp

/-- Witness for C10: with no DB entry for the remote, the dispose is
allowed and the database is untouched. -/
theorem participant_dispose_read_spec_witness :
    (participant_dispose_read ⟨fun _ => none⟩ 3).1 = NormalDiscoveryPermission.Allow :=
  ((participant_dispose_read_spec ⟨fun _ => none⟩ 3).1).mpr (Or.inl rfl)

/-- Helper for C6: the selection loop returns the lowest bindable id in
the window it scans. -/
theorem selectParticipantIdLoop_spec (bindable : Nat → Bool) :
    ∀ (fuel start p : Nat),
      (selectParticipantIdLoop bindable fuel start = some p ↔
        (start ≤ p ∧ p < start + fuel ∧ bindable p = true ∧
          ∀ q, start ≤ q → q < p → bindable q = false)) := by
  intro fuel
  induction fuel with
  | zero =>
    intro start p
    refine iff_of_false (by simp [selectParticipantIdLoop]) ?_
    rintro ⟨h1, h2, _⟩; omega
  | succ n ih =>
    intro start p
    show (if bindable start then some start else selectParticipantIdLoop bindable n (start + 1)) =
        some p ↔ _
    by_cases hb : bindable start = true
    · rw [if_pos hb]
      constructor
      · intro h
        cases h
        exact ⟨le_refl _, by omega, hb, fun q hq1 hq2 => by omega⟩
      · rintro ⟨h1, h2, h3, h4⟩
        rcases Nat.eq_or_lt_of_le h1 with heq | hlt
        · exact congrArg some heq.symm ▸ rfl
        · exact absurd hb (by simpa using h4 start (le_refl _) hlt)
    · rw [if_neg hb]
      rw [ih (start + 1) p]
      constructor
      · rintro ⟨h1, h2, h3, h4⟩
        refine ⟨by omega, by omega, h3, fun q hq1 hq2 => ?_⟩
        rcases Nat.eq_or_lt_of_le hq1 with heq | hlt
        · simpa [← heq] using (Bool.not_eq_true _).mp hb
        · exact h4 q hlt hq2
      · rintro ⟨h1, h2, h3, h4⟩
        have hne : p ≠ start := by
          rintro rfl; exact hb h3
        refine ⟨by omega, by omega, h3, fun q hq1 hq2 => h4 q (by omega) hq2⟩

/-- Helper for C6: the selection loop returns none iff nothing in its
window is bindable. -/
theorem selectParticipantIdLoop_none (bindable : Nat → Bool) :
    ∀ (fuel start : Nat),
      (selectParticipantIdLoop bindable fuel start = none ↔
        ∀ q, start ≤ q → q < start + fuel → bindable q = false) := by
  intro fuel
  induction fuel with
  | zero =>
    intro start
    exact iff_of_true rfl (fun q hq1 hq2 => absurd hq2 (by omega))
  | succ n ih =>
    intro start
    show (if bindable start then some start else selectParticipantIdLoop bindable n (start + 1)) =
        none ↔ _
    by_cases hb : bindable start = true
    · rw [if_pos hb]
      constructor
      · intro h; cases h
      · intro h
        exact absurd hb (by simpa using h start (le_refl _) (by omega))
    · rw [if_neg hb]
      rw [ih (start + 1)]
      constructor
      · intro h q hq1 hq2
        rcases Nat.eq_or_lt_of_le hq1 with heq | hlt
        · simpa [← heq] using (Bool.not_eq_true _).mp hb
        · exact h q hlt (by omega)
      · intro h q hq1 hq2
        exact h q (by omega) (by omega)

/-- C6: at participant construction the participant index is the lowest
value in 0..119 whose SPDP unicast port is bindable; if no index below
120 is bindable, construction fails with OutOfResources. -/
theorem participantConstructionId_spec (bindable : Nat → Bool) :
    (∀ p, participantConstructionId bindable = Except.ok p ↔
      (p < 120 ∧ bindable p = true ∧ ∀ q, q < p → bindable q = false)) ∧
    (participantConstructionId bindable = Except.error CreateError.OutOfResources ↔
      ∀ q, q < 120 → bindable q = false) := by
  constructor
  · intro p
    unfold participantConstructionId selectParticipantId
    rcases h : selectParticipantIdLoop bindable 120 0 with _ | p0
    · simp only [Except.ok.injEq]
      rw [selectParticipantIdLoop_none] at h
      constructor
      · intro hcontra; cases hcontra
      · rintro ⟨h1, h2, _⟩
        exact absurd h2 (by simp [h p (by omega) (by omega)])
    · simp only [Except.ok.injEq]
      rw [selectParticipantIdLoop_spec] at h
      obtain ⟨_, hlt, hb, hmin⟩ := h
      constructor
      · rintro rfl
        exact ⟨by omega, hb, fun q hq => hmin q (by omega) hq⟩
      · rintro ⟨h1, h2, h3⟩
        by_contra hne
        rcases Nat.lt_or_ge p p0 with hlt2 | hge
        · exact absurd h2 (by simp [hmin p (by omega) hlt2])
        · have : p0 < p := by omega
          exact absurd hb (by simp [h3 p0 this])
  · unfold participantConstructionId selectParticipantId
    rcases h : selectParticipantIdLoop bindable 120 0 with _ | p0
    · rw [selectParticipantIdLoop_none] at h
      exact iff_of_true rfl (fun q hq => h q (by omega) (by omega))
    · rw [selectParticipantIdLoop_spec] at h
      obtain ⟨_, hlt, hb, _⟩ := h
      refine iff_of_false (by simp) ?_
      intro hall
      exact absurd hb (by simp [hall p0 (by omega)])

/-- Witness for C6: with only id 2 bindable, construction selects
participant id 2. -/
theorem participantConstructionId_spec_witness :
    participantConstructionId (fun p => p == 2) = Except.ok 2 :=
  ((participantConstructionId_spec (fun p => p == 2)).1 2).mpr
    ⟨by omega, by decide, fun q hq => by
      interval_cases q <;> decide⟩

/-- C2: when the event loop processes a ParticipantUpdated notification
with security enabled, the endpoint init lists it matches are determined
exactly by the authentication status of the remote: Authenticating matches
only the stateless-message authentication endpoints; Authenticated
matches the standard built-in endpoints plus the secure built-in
endpoints, including ParticipantVolatileMessageSecure; Unauthenticated
matches only the standard built-in endpoints; Rejected or unknown
matches none. -/
theorem update_participant_endpoint_matching
    (securityPluginsPresent : Bool)
    (hsec : securityPluginsPresent = true) :
    (update_participant_endpoint_lists securityPluginsPresent
        (some AuthenticationStatus.Authenticating) =
      (AUTHENTICATION_BUILTIN_READERS_INIT_LIST, AUTHENTICATION_BUILTIN_WRITERS_INIT_LIST)) ∧
    (update_participant_endpoint_lists securityPluginsPresent
        (some AuthenticationStatus.Authenticated) =
      (STANDARD_BUILTIN_READERS_INIT_LIST ++ SECURE_BUILTIN_READERS_INIT_LIST,
       STANDARD_BUILTIN_WRITERS_INIT_LIST ++ SECURE_BUILTIN_WRITERS_INIT_LIST)) ∧
    (⟨p2pVolatileSecureWriterEid, p2pVolatileSecureReaderEid, 134⟩ ∈
      (update_participant_endpoint_lists securityPluginsPresent
        (some AuthenticationStatus.Authenticated)).1) ∧
    (⟨p2pVolatileSecureWriterEid, p2pVolatileSecureReaderEid, 144⟩ ∈
      (update_participant_endpoint_lists securityPluginsPresent
        (some AuthenticationStatus.Authenticated)).2) ∧
    (update_participant_endpoint_lists securityPluginsPresent
        (some AuthenticationStatus.Unauthenticated) =
      (STANDARD_BUILTIN_READERS_INIT_LIST, STANDARD_BUILTIN_WRITERS_INIT_LIST)) ∧
    (update_participant_endpoint_lists securityPluginsPresent
        (some AuthenticationStatus.Rejected) = ([], [])) ∧
    (update_participant_endpoint_lists securityPluginsPresent none = ([], [])) := by
  subst hsec
  refine ⟨rfl, rfl, ?_, ?_, rfl, rfl, rfl⟩
  · simp [update_participant_endpoint_lists, STANDARD_BUILTIN_READERS_INIT_LIST,
      SECURE_BUILTIN_READERS_INIT_LIST]
  · simp [update_participant_endpoint_lists, STANDARD_BUILTIN_WRITERS_INIT_LIST,
      SECURE_BUILTIN_WRITERS_INIT_LIST]

/-- Witness for C2: the endpoint selection evaluated with security
plugins present. -/
theorem update_participant_endpoint_matching_witness :
    update_participant_endpoint_lists true (some AuthenticationStatus.Rejected) = ([], []) :=
  (update_participant_endpoint_matching true rfl).2.2.2.2.2.1

/-- Helper: splitting off an appended last element. -/
theorem splitEndsAux_append (mid : List Submessage) (x post : Submessage) :
    splitEndsAux x (mid ++ [post]) = (x :: mid, post) := by
  induction mid generalizing x with
  | nil => rfl
  | cons y rest ih =>
    simp [splitEndsAux, ih]

/-- Helper: `splitEnds` recovers the bracketing submessages that the
encoder appended. -/
theorem splitEnds_append (pre : Submessage) (mid : List Submessage) (post : Submessage) :
    splitEnds ([pre] ++ mid ++ [post]) = some (pre, mid, post) := by
  cases mid with
  | nil => rfl
  | cons y rest =>
    simp only [List.cons_append, List.nil_append, List.singleton_append, splitEnds,
      splitEndsAux_append]

/-- Helper: concatenating the one-token byte images of submessages
yields the submessage list itself. -/
theorem flatten_singleton_map (l : List Submessage) :
    (l.map (fun s => [s])).flatten = l := by
  induction l with
  | nil => rfl
  | cons x rest ih => simp [ih]

/-- Helper: concatenating serialized submessages yields the submessage
list (the wire round-trip law, instantiated to the serializer). -/
theorem flatten_map_writeToVec (l : List Submessage) :
    (l.map writeToVec).flatten = l :=
  flatten_singleton_map l

/-- Helper: concatenating original byte images yields the submessage
list. -/
theorem flatten_map_originalBytes (l : List Submessage) :
    (l.map originalBytes).flatten = l :=
  flatten_singleton_map l

/-- Helper: the receiver-specific MAC list of the encoder contains, at the
position of the compatible key, the MAC computed with that key. -/
theorem find_receiver_specific_mac_of_compatible
    (rk : ReceiverSpecificKey) (keys : List ReceiverSpecificKey)
    (iv : Nat) (data : List Submessage)
    (h : keys.find? (fun k => k.keyId == rk.keyId) = some rk) :
    (keys.map (fun k =>
        ({ receiverMacKeyId := k.keyId, mac := computeMac k.key iv data } :
          ReceiverSpecificMac))).find?
      (fun mm => mm.receiverMacKeyId == rk.keyId) =
    some { receiverMacKeyId := rk.keyId, mac := computeMac rk.key iv data } := by
  induction keys with
  | nil => cases h
  | cons k rest ih =>
    rw [List.find?_cons] at h
    rw [List.map_cons, List.find?_cons]
    by_cases hk : (k.keyId == rk.keyId) = true
    · simp only [hk] at h
      have hkr : k = rk := by injection h
      subst hkr
      simp [hk]
    · simp only [Bool.not_eq_true] at hk
      simp only [hk] at h
      simpa [hk] using ih h

/-- Helper: looking up the modified key after `alModify` yields the
modified value. -/
theorem alLookup_alModify (l : List (GuidPre × StoredAuthMessage)) (g : GuidPre)
    (f : StoredAuthMessage → StoredAuthMessage) :
    alLookup (alModify l g f) g = (alLookup l g).map f := by
  induction l with
  | nil => rfl
  | cons p rest ih =>
    rcases p with ⟨k, v⟩
    unfold alModify alLookup
    rw [List.map_cons]
    by_cases hk : (k == g) = true
    · rw [if_pos hk]
      rw [List.find?_cons_of_pos _ (by simpa using hk),
          List.find?_cons_of_pos _ (by simpa using hk)]
      rfl
    · rw [if_neg hk]
      rw [List.find?_cons_of_neg _ (by simpa using hk),
          List.find?_cons_of_neg _ (by simpa using hk)]
      simpa [alModify, alLookup] using ih

/-- C3: while the handshake state for the sender is PendingReplyMessage
or PendingFinalMessage, a received handshake message whose
`related_message_identity` does not equal the identity of the message we
last sent to that peer — or for which no stored message exists — is
dropped: the handshake state, the stored authentication messages and the
authentication status are all unchanged. -/
theorem handshake_unrelated_message_dropped
    (localGuid : Nat) (env : HandshakePluginEnv) (s : SecureDiscoveryState)
    (msg : StatelessMessage)
    (hdrop : alLookup s.storedMessages msg.sourceGuidPre = none ∨
      ∃ stored, alLookup s.storedMessages msg.sourceGuidPre = some stored ∧
        msg.relatedMessageIdentity ≠ stored.message.messageIdentity) :
    handshake_on_pending_reply_message localGuid env s msg = s ∧
    handshake_on_pending_final_message env s msg = s := by
  have hcheck : check_is_stateless_msg_related_to_our_msg s msg msg.sourceGuidPre = false := by
    unfold check_is_stateless_msg_related_to_our_msg
    rcases hdrop with h | ⟨stored, h, hne⟩
    · rw [h]
    · rw [h]
      simpa using hne
  constructor
  · unfold handshake_on_pending_reply_message
    simp [hcheck]
  · unfold handshake_on_pending_final_message
    simp [hcheck]

/-- Witness for C3: a concrete state with no stored message for the
sender; the message is dropped without touching the state. -/
theorem handshake_unrelated_message_dropped_witness :
    handshake_on_pending_reply_message 0 exampleFailingEnv exampleEmptyState
      exampleIncomingReply = exampleEmptyState :=
  (handshake_unrelated_message_dropped 0 exampleFailingEnv exampleEmptyState
    exampleIncomingReply (Or.inl rfl)).1

/-- C9: when the security plugin rejects a received handshake reply or
final message (`process_handshake` errors), the stored authentication
resend counter of the stored message is reset to the maximum value 10, so invalid
handshake messages never decrease the number of remaining resends. -/
theorem invalid_handshake_resets_resend_counter
    (localGuid : Nat) (env : HandshakePluginEnv) (s : SecureDiscoveryState)
    (msg : StatelessMessage) (stored : StoredAuthMessage)
    (token : HandshakeToken) (e : SecError)
    (hstored : alLookup s.storedMessages msg.sourceGuidPre = some stored)
    (hrel : msg.relatedMessageIdentity = stored.message.messageIdentity)
    (htok : msg.handshakeToken = some token)
    (herr : env.processHandshake msg.sourceGuidPre token = Except.error e)
    (hle : stored.remainingResendCounter ≤ STORED_AUTH_MESSAGE_MAX_RESEND_COUNT) :
    (alLookup (handshake_on_pending_reply_message localGuid env s msg).storedMessages
        msg.sourceGuidPre =
      some { stored with remainingResendCounter := STORED_AUTH_MESSAGE_MAX_RESEND_COUNT }) ∧
    (alLookup (handshake_on_pending_final_message env s msg).storedMessages
        msg.sourceGuidPre =
      some { stored with remainingResendCounter := STORED_AUTH_MESSAGE_MAX_RESEND_COUNT }) ∧
    stored.remainingResendCounter ≤
      ({ stored with remainingResendCounter := STORED_AUTH_MESSAGE_MAX_RESEND_COUNT } :
        StoredAuthMessage).remainingResendCounter := by
  have hcheck : check_is_stateless_msg_related_to_our_msg s msg msg.sourceGuidPre = true := by
    unfold check_is_stateless_msg_related_to_our_msg
    rw [hstored]
    simpa using hrel
  have hreset :
      alLookup (reset_stored_message_resend_counter s msg.sourceGuidPre).storedMessages
          msg.sourceGuidPre =
        some { stored with remainingResendCounter := STORED_AUTH_MESSAGE_MAX_RESEND_COUNT } := by
    unfold reset_stored_message_resend_counter
    rw [alLookup_alModify, hstored]
    rfl
  refine ⟨?_, ?_, hle⟩
  · unfold handshake_on_pending_reply_message
    simp only [hcheck, if_true, htok, herr]
    exact hreset
  · unfold handshake_on_pending_final_message
    simp only [hcheck, if_true, htok, herr]
    exact hreset

/-- Witness for C9: concrete one-entry state; the plugin error resets
the counter from 3 back to 10. -/
theorem invalid_handshake_resets_resend_counter_witness :
    alLookup (handshake_on_pending_reply_message 0 exampleFailingEnv exampleResetState
      exampleIncomingReply).storedMessages 5 =
      some { message := exampleStatelessMessage,
             remainingResendCounter := STORED_AUTH_MESSAGE_MAX_RESEND_COUNT } :=
  (invalid_handshake_resets_resend_counter 0 exampleFailingEnv exampleResetState
    exampleIncomingReply { message := exampleStatelessMessage, remainingResendCounter := 3 }
    7 4 rfl rfl rfl rfl (by decide)).1

/-- C4: a sent handshake message is stored with its resend counter at
10; in a resend pass a stored message whose handshake state is
CompletedWithFinalMessageSent is kept untouched, any other stored,
successfully re-sent message has its counter decremented, and a message
whose counter thereby reaches 0 is removed from storage (so it is never
re-sent again); after the pass every stored message has a positive
counter. -/
theorem stored_auth_message_resend_spec
    (msg : StatelessMessage) (writeOk : GuidPre → Bool)
    (s : SecureDiscoveryState) (g : GuidPre) (m : StoredAuthMessage)
    (hmem : (g, m) ∈ s.storedMessages)
    (huniq : ∀ p ∈ s.storedMessages, p.1 = g → p.2 = m) :
    (StoredAuthMessage.new msg).remainingResendCounter = STORED_AUTH_MESSAGE_MAX_RESEND_COUNT ∧
    (∀ p ∈ (resend_unanswered_authentication_messages writeOk s).storedMessages,
      0 < p.2.remainingResendCounter) ∧
    (s.handshakeStates g = some DiscHandshakeState.CompletedWithFinalMessageSent →
      0 < m.remainingResendCounter →
      (g, m) ∈ (resend_unanswered_authentication_messages writeOk s).storedMessages) ∧
    (s.handshakeStates g ≠ some DiscHandshakeState.CompletedWithFinalMessageSent →
      writeOk g = true → 1 < m.remainingResendCounter →
      (g, { m with remainingResendCounter := m.remainingResendCounter - 1 }) ∈
        (resend_unanswered_authentication_messages writeOk s).storedMessages) ∧
    (s.handshakeStates g ≠ some DiscHandshakeState.CompletedWithFinalMessageSent →
      writeOk g = true → m.remainingResendCounter = 1 →
      ∀ mOther, (g, mOther) ∉
        (resend_unanswered_authentication_messages writeOk s).storedMessages) := by
  unfold resend_unanswered_authentication_messages
  refine ⟨rfl, ?_, ?_, ?_, ?_⟩
  · intro p hp
    have := List.of_mem_filter hp
    simpa using this
  · intro hfinal hpos
    apply List.mem_filter.mpr
    constructor
    · have himg := List.mem_map_of_mem (f := fun p =>
        if s.handshakeStates p.1 ≠ some DiscHandshakeState.CompletedWithFinalMessageSent ∧
            writeOk p.1 = true then
          (p.1, { p.2 with remainingResendCounter := p.2.remainingResendCounter - 1 })
        else p) hmem
      simpa [hfinal] using himg
    · simpa using hpos
  · intro hfinal hok hgt
    apply List.mem_filter.mpr
    constructor
    · have himg := List.mem_map_of_mem (f := fun p =>
        if s.handshakeStates p.1 ≠ some DiscHandshakeState.CompletedWithFinalMessageSent ∧
            writeOk p.1 = true then
          (p.1, { p.2 with remainingResendCounter := p.2.remainingResendCounter - 1 })
        else p) hmem
      simpa [hfinal, hok] using himg
    · simp only [decide_eq_true_eq]
      omega
  · intro hfinal hok hone mOther hmemOther
    have hmap := (List.mem_filter.mp hmemOther).1
    have hposOther := (List.mem_filter.mp hmemOther).2
    simp only [decide_eq_true_eq] at hposOther
    obtain ⟨p, hpmem, hpimg⟩ := List.mem_map.mp hmap
    have hkey : p.1 = g := by
      by_cases hc : s.handshakeStates p.1 ≠ some DiscHandshakeState.CompletedWithFinalMessageSent ∧
          writeOk p.1 = true
      · rw [if_pos hc] at hpimg
        exact (Prod.mk.injEq _ _ _ _ ▸ hpimg).1
      · rw [if_neg hc] at hpimg
        rw [hpimg]
    have hpm : p.2 = m := huniq p hpmem hkey
    have hcond : s.handshakeStates p.1 ≠ some DiscHandshakeState.CompletedWithFinalMessageSent ∧
        writeOk p.1 = true := by
      rw [hkey]
      exact ⟨hfinal, hok⟩
    rw [if_pos hcond] at hpimg
    have : mOther.remainingResendCounter = 0 := by
      have := congrArg Prod.snd hpimg
      simp only at this
      rw [← this, hpm, hone]
    omega

/-- Witness for C4: in the concrete one-entry storage the pending
stored counter drops from 2 to 1 in a successful resend pass. -/
theorem stored_auth_message_resend_spec_witness :
    (5, { message := exampleStatelessMessage, remainingResendCounter := 1 }) ∈
      (resend_unanswered_authentication_messages (fun _ => true)
        exampleResendState).storedMessages := by
  have h := (stored_auth_message_resend_spec exampleStatelessMessage (fun _ => true)
    exampleResendState 5 { message := exampleStatelessMessage, remainingResendCounter := 2 }
    (by simp [exampleResendState]) (by simp [exampleResendState])).2.2.2.1
    (by simp [exampleResendState]) rfl (by decide)
  simpa using h

/-- C1: for every RTPS message and every pair of matched participant
crypto handles with registered, matching key material (same key id,
transformation kind and session key, and a compatible receiver-specific
key), decoding an encoded message round-trips for every supported
transformation kind: `decode_rtps_message` after `encode_rtps_message`
returns the original message with the same header and the same
submessage sequence. -/
theorem decode_encode_rtps_message_roundtrip
    (c : CryptographicBuiltin) (m : Message)
    (senderHandle receiverHandle : Nat) (receiverHandles : List Nat)
    (em : EncryptSessionMaterials) (dm : DecodeKeyMaterial)
    (hem : c.encodeMaterials senderHandle receiverHandles = some em)
    (hdm : c.decodeMaterials senderHandle em.keyId = some dm)
    (hkid : dm.keyId = em.keyId)
    (hkind : dm.transformationKind = em.transformationKind)
    (hkey : dm.sessionKey = em.sessionKey)
    (hrk : receiverKeyCompatible dm.receiverSpecificKey em.receiverSpecificKeys) :
    (encode_rtps_message c m senderHandle receiverHandles).bind
      (fun encoded => decode_rtps_message c encoded receiverHandle senderHandle) =
    Except.ok m := by
  rcases em with ⟨emKeyId, emKind, emSessionKey, emIv, emRkeys⟩
  rcases dm with ⟨dmKeyId, dmKind, dmSessionKey, dmRsk⟩
  dsimp only at hkid hkind hkey hdm hrk
  subst hkid
  subst hkind
  subst hkey
  simp only [encode_rtps_message, hem]
  cases dmKind <;>
    simp only [Except.bind, decode_rtps_message] <;>
    rw [splitEnds_append] <;>
    rcases dmRsk with _ | rk <;>
  first
    | (simp [hdm, find_receiver_specific_mac, validateMac, aesDecrypt, encode_gmac,
        encode_gcm, aesEncrypt, flatten_map_writeToVec, flatten_map_originalBytes,
        writeToVec, originalBytes, List.reverse_reverse]
       done)
    | (have hfind : emRkeys.find? (fun k => k.keyId == rk.keyId) = some rk := hrk
       simp [hdm, find_receiver_specific_mac, hfind, Function.comp_def, validateMac, aesDecrypt,
        encode_gmac, encode_gcm, aesEncrypt, flatten_map_writeToVec, flatten_map_originalBytes,
        writeToVec, originalBytes, List.reverse_reverse]
       done)

/-- Witness for C1: the round-trip evaluated on a concrete message,
key registry and AES256 GCM key material with a receiver-specific
key. -/
theorem decode_encode_rtps_message_roundtrip_witness :
    (encode_rtps_message exampleCrypto exampleMessage 1 [2]).bind
      (fun encoded => decode_rtps_message exampleCrypto encoded 2 1) =
    Except.ok exampleMessage :=
  decode_encode_rtps_message_roundtrip exampleCrypto exampleMessage 1 2 [2]
    exampleEncMaterials exampleDecMaterials
    (by simp [exampleCrypto]) (by simp [exampleCrypto, exampleEncMaterials]) rfl rfl rfl rfl

/-- C5: every SEC_PREFIX / SEC_POSTFIX submessage produced by
`encode_submessage` and every SRTPS_PREFIX / SRTPS_POSTFIX submessage
produced by `encode_rtps_message` is serialized with big-endian body
encoding. -/
theorem security_submessages_big_endian
    (c : CryptographicBuiltin) (plain : Submessage) (m : Message)
    (sendingHandle : Nat) (receivingHandles : List Nat) :
    (∀ pre body post,
      encode_submessage c plain sendingHandle receivingHandles =
        Except.ok (EncodedSubmessage.Encoded pre body post) →
      (∃ h, pre = Submessage.secPre h Endianness.big) ∧
      (∃ f, post = Submessage.secPost f Endianness.big)) ∧
    (∀ out,
      encode_rtps_message c m sendingHandle receivingHandles = Except.ok out →
      ∃ h f mid,
        out.submessages =
          [Submessage.srtpsPre h Endianness.big] ++ mid ++
          [Submessage.srtpsPost f Endianness.big]) := by
  constructor
  · intro pre body post henc
    unfold encode_submessage at henc
    rcases hm : c.encodeMaterials sendingHandle receivingHandles with _ | em
    · simp only [hm] at henc
      exact Except.noConfusion henc
    · simp only [hm] at henc
      rcases hk : em.transformationKind <;> simp only [hk] at henc <;>
        first
          | (injection henc with henc2
             injection henc2 with h1 h2 h3
             exact ⟨⟨_, h1.symm⟩, ⟨_, h3.symm⟩⟩)
          | (injection henc with henc2
             injection henc2)
  · intro out henc
    unfold encode_rtps_message at henc
    rcases hm : c.encodeMaterials sendingHandle receivingHandles with _ | em
    · simp only [hm] at henc
      exact Except.noConfusion henc
    · simp only [hm] at henc
      injection henc with henc2
      subst henc2
      exact ⟨_, _, _, rfl⟩

/-- Witness for C5: the endianness facts evaluated on the concrete
crypto registry and message. -/
theorem security_submessages_big_endian_witness :
    ∃ h f mid,
      (Message.mk { protocolVersion := 2, vendorId := 3, guidPre := 77 }
        ((encode_rtps_message exampleCrypto exampleMessage 1 [2]).toOption.map
          Message.submessages |>.getD []) ).submessages =
        [Submessage.srtpsPre h Endianness.big] ++ mid ++
        [Submessage.srtpsPost f Endianness.big] := by
  have h := (security_submessages_big_endian exampleCrypto
    (Submessage.writerSub 4 Endianness.little) exampleMessage 1 [2]).2
  obtain ⟨hh, hf, hmid, heq⟩ := h _ rfl
  exact ⟨hh, hf, hmid, by rw [← heq]; rfl⟩

/-- C7: `find_topic` returns Ok(None) exactly when no topic of the
given name appears in any DiscoveryDB state observed before the timeout;
when a topic of that name is present at the first check that sees one,
it returns Ok(Some(topic)) with the topic built from the discovered
topic data. -/
theorem find_topic_spec (snapshots : List TopicDB) (name : Nat) :
    (find_topic snapshots name = Except.ok none ↔
      ∀ db ∈ snapshots, db.getTopic name = none) ∧
    (∀ pre db post, snapshots = pre ++ db :: post →
      (∀ q ∈ pre, q.getTopic name = none) →
      ∀ d, db.getTopic name = some d →
        find_topic snapshots name = Except.ok (some (build_topic_fn d))) := by
  induction snapshots with
  | nil =>
    refine ⟨iff_of_true rfl (by intro db hdb; cases hdb), ?_⟩
    intro pre db post hsnap
    exact absurd hsnap (by simp)
  | cons db0 rest ih =>
    constructor
    · show (match db0.getTopic name with
        | some d => Except.ok (some (build_topic_fn d))
        | none => find_topic rest name) = Except.ok none ↔ _
      rcases h0 : db0.getTopic name with _ | d
      · rw [ih.1]
        constructor
        · intro hall db hdb
          rcases List.mem_cons.mp hdb with rfl | hmem
          · exact h0
          · exact hall db hmem
        · intro hall db hdb
          exact hall db (List.mem_cons_of_mem _ hdb)
      · refine iff_of_false (by simp) ?_
        intro hall
        exact absurd h0 (by simp [hall db0 (List.mem_cons_self _ _)])
    · intro pre db post hsnap hpre d hd
      cases pre with
      | nil =>
        simp only [List.nil_append, List.cons.injEq] at hsnap
        obtain ⟨h1, h2⟩ := hsnap
        subst h1
        subst h2
        simp only [find_topic, hd]
      | cons q qs =>
        simp only [List.cons_append, List.cons.injEq] at hsnap
        obtain ⟨h1, hrest⟩ := hsnap
        subst h1
        have h0 : db0.getTopic name = none := hpre db0 (List.mem_cons_self _ _)
        simp only [find_topic, h0]
        exact ih.2 qs db post hrest
          (fun q hq => hpre q (List.mem_cons_of_mem _ hq)) d hd

/-- Witness for C7: a two-snapshot trace where the topic appears only
in the second observed DB state. -/
theorem find_topic_spec_witness :
    find_topic [⟨[]⟩, ⟨[⟨3, 4, none, 9⟩]⟩] 3 =
      Except.ok (some (build_topic_fn ⟨3, 4, none, 9⟩)) :=
  (find_topic_spec [⟨[]⟩, ⟨[⟨3, 4, none, 9⟩]⟩] 3).2 [⟨[]⟩] ⟨[⟨3, 4, none, 9⟩]⟩ []
    rfl (by intro q hq; simp at hq; subst hq; rfl) ⟨3, 4, none, 9⟩ rfl

/-- C8: an ACKNACK addressed to a local writer invokes the ACKNACK
handler of that writer exactly when that writer exists and its reliability QoS
is Reliable; for a best-effort writer or an unknown writer EntityId the
ACKNACK is dropped with no effect on any writer state. -/
theorem handle_writer_acknack_action_spec
    (handleAckNack : GuidPre → AckSubmessage → RtpsWriter → RtpsWriter)
    (writers : EId → Option RtpsWriter)
    (senderGuidPre : GuidPre) (acknack : AckSubmessage) :
    ((handle_writer_acknack_action handleAckNack writers senderGuidPre acknack).2 = true ↔
      ∃ w, writers acknack.writerId = some w ∧ w.reliable = true) ∧
    ((handle_writer_acknack_action handleAckNack writers senderGuidPre acknack).2 = false →
      (handle_writer_acknack_action handleAckNack writers senderGuidPre acknack).1 = writers) := by
  unfold handle_writer_acknack_action
  rcases h : writers acknack.writerId with _ | w
  · simp
  · by_cases hr : w.reliable = true
    · simp [hr]
    · simp [hr, Bool.not_eq_true _ ▸ hr]

/-- Witness for C8: a best-effort writer at EntityId 4 makes the
ACKNACK a no-op on the writer map. -/
theorem handle_writer_acknack_action_spec_witness :
    (handle_writer_acknack_action (fun _ _ w => w)
      (fun eid => if eid = 4 then some ⟨false, 0⟩ else none) 9 ⟨4, 0⟩).1 =
    (fun eid => if eid = 4 then some ⟨false, 0⟩ else none) :=
  (handle_writer_acknack_action_spec (fun _ _ w => w)
    (fun eid => if eid = 4 then some ⟨false, 0⟩ else none) 9 ⟨4, 0⟩).2 rfl

end RustDDS
